import Mathlib

/-!
Verification development for the GaiaNet repository.

This file gives a shallow embedding of the inference-pipeline helpers of
src/app.py (the Structured-Response Extractor safe_json_parse, the four
gemini_* stage functions, the Species Detection tab orchestration including
its CLIP fallback and synthetic-history generator) and of the GBIF
ingestion collaborator of src/gaianet-ingestor/main.py
(define_gbif_query_predicate and ingest_gbif_data), together with theorems
settling the specification claims about them.

Conventions of the embedding:
* Python exceptions are modelled with the Except monad over the PyExc type;
  a Python function that can raise returns Except PyExc α.
* The remote Gemini calls (model.generate_content) are modelled as oracle
  arguments of type Except PyExc String: an .ok value is the response text,
  an .error value is an exception raised by the call.  Prompt text is only
  sent to the oracle, so its literal content is elided; the parts of prompt
  construction that can raise (str.replace and str.join demand str
  arguments) are modelled explicitly.
* Streamlit session state is modelled as an explicit record threaded
  through the Species Detection tab code; the tab run returns the state
  accumulated so far together with the exception, if any, that escaped.
-/

namespace GaiaNet

/-! ## JSON values

Model of the Python values produced by json.loads.  JSON null maps to the
null constructor (Python None), objects map to dicts, modelled as an
association list in insertion order where a repeated key overwrites in
place, exactly as a Python dict built by repeated assignment.  A number
literal with a fraction or exponent part becomes a Python float; its
numeric value is never inspected by the program, so it is kept symbolically
as the matched literal.  The nonstandard NaN/Infinity literals accepted by
Python are not modelled; no input of this repository contains them. -/

inductive JsonVal where
  | null
  | bool (b : Bool)
  | num (n : Int)
  | fnum (lit : String)
  | str (s : String)
  | arr (elems : List JsonVal)
  | obj (fields : List (String × JsonVal))

/-! Character constants, by code point, for the lexical part of the
parser. -/

def lbraceC : Char := Char.ofNat 123
def rbraceC : Char := Char.ofNat 125
def lbrackC : Char := Char.ofNat 91
def rbrackC : Char := Char.ofNat 93
def dquoteC : Char := Char.ofNat 34
def bslashC : Char := Char.ofNat 92
def colonC : Char := Char.ofNat 58
def commaC : Char := Char.ofNat 44
def minusC : Char := Char.ofNat 45
def plusC : Char := Char.ofNat 43
def dotC : Char := Char.ofNat 46
def slashC : Char := Char.ofNat 47
def zeroC : Char := Char.ofNat 48
def eLowC : Char := Char.ofNat 101
def eUpC : Char := Char.ofNat 69

/-- JSON whitespace, as accepted between tokens by Python's json module:
space, tab, newline, carriage return. -/
def isJsonWs (c : Char) : Bool :=
  c == Char.ofNat 32 || c == Char.ofNat 9 || c == Char.ofNat 10 || c == Char.ofNat 13

def skipWs (cs : List Char) : List Char := cs.dropWhile isJsonWs

/-- Does the second list start with the first? -/
def startsWithL : List Char → List Char → Bool
  | [], _ => true
  | _ :: _, [] => false
  | n :: ns, c :: cs => n == c && startsWithL ns cs

def trueLit : List Char := "true".data
def falseLit : List Char := "false".data
def nullLit : List Char := "null".data

def hexVal (c : Char) : Option Nat :=
  let n := c.toNat
  if 48 ≤ n && n ≤ 57 then some (n - 48)
  else if 65 ≤ n && n ≤ 70 then some (n - 55)
  else if 97 ≤ n && n ≤ 102 then some (n - 87)
  else none

/-- Body of a JSON string literal, after the opening quote: Python's strict
mode rejects raw control characters and unknown escapes.  A \u escape is
decoded by code point (surrogate-pair recombination is not modelled; no
input of this repository uses \u escapes). -/
def parseStrAux : List Char → List Char → Option (String × List Char)
  | _, [] => none
  | acc, c :: rest =>
    if c == dquoteC then some (String.mk acc.reverse, rest)
    else if c == bslashC then
      match rest with
      | [] => none
      | e :: r2 =>
        if e == dquoteC then parseStrAux (dquoteC :: acc) r2
        else if e == bslashC then parseStrAux (bslashC :: acc) r2
        else if e == slashC then parseStrAux (slashC :: acc) r2
        else if e == Char.ofNat 98 then parseStrAux (Char.ofNat 8 :: acc) r2
        else if e == Char.ofNat 102 then parseStrAux (Char.ofNat 12 :: acc) r2
        else if e == Char.ofNat 110 then parseStrAux (Char.ofNat 10 :: acc) r2
        else if e == Char.ofNat 114 then parseStrAux (Char.ofNat 13 :: acc) r2
        else if e == Char.ofNat 116 then parseStrAux (Char.ofNat 9 :: acc) r2
        else if e == Char.ofNat 117 then
          match r2 with
          | h1 :: h2 :: h3 :: h4 :: r3 =>
            match hexVal h1, hexVal h2, hexVal h3, hexVal h4 with
            | some a, some b, some c2, some d =>
              parseStrAux (Char.ofNat (4096 * a + 256 * b + 16 * c2 + d) :: acc) r3
            | _, _, _, _ => none
          | _ => none
        else none
    else if c.toNat < 32 then none
    else parseStrAux (c :: acc) rest

def spanDigits (cs : List Char) : List Char × List Char :=
  (cs.takeWhile Char.isDigit, cs.dropWhile Char.isDigit)

def digitsToNat (ds : List Char) : Nat :=
  ds.foldl (fun a c => 10 * a + (c.toNat - 48)) 0

/-- A JSON number token: -?(0|[1-9][0-9]*)(.[0-9]+)?([eE][+-]?[0-9]+)?,
which is the regular expression used by Python's json scanner.  A pure
integer becomes a Python int, anything with a fraction or exponent part
becomes a float, kept here as its literal. -/
def parseNum (cs : List Char) : Option (JsonVal × List Char) :=
  let sgn : Bool × List Char :=
    match cs with
    | c :: r => if c == minusC then (true, r) else (false, cs)
    | [] => (false, cs)
  match sgn.2 with
  | [] => none
  | c :: r =>
    if !c.isDigit then none
    else
      let ip : List Char × List Char :=
        if c == zeroC then ([c], r)
        else ((c :: (spanDigits r).1), (spanDigits r).2)
      let fr : Option (List Char × List Char) :=
        match ip.2 with
        | d :: r2 =>
          if d == dotC then
            if (spanDigits r2).1.isEmpty then none
            else some (d :: (spanDigits r2).1, (spanDigits r2).2)
          else some ([], ip.2)
        | [] => some ([], ip.2)
      match fr with
      | none => none
      | some (fds, rest2) =>
        let ex : Option (List Char × List Char) :=
          match rest2 with
          | d :: r2 =>
            if d == eLowC || d == eUpC then
              let sr : List Char × List Char :=
                match r2 with
                | s :: r4 => if s == minusC || s == plusC then ([s], r4) else ([], r2)
                | [] => ([], r2)
              if (spanDigits sr.2).1.isEmpty then none
              else some (d :: sr.1 ++ (spanDigits sr.2).1, (spanDigits sr.2).2)
            else some ([], rest2)
          | [] => some ([], rest2)
        match ex with
        | none => none
        | some (eds, rest3) =>
          if fds.isEmpty && eds.isEmpty then
            let v : Int := if sgn.1 then -(digitsToNat ip.1 : Int) else (digitsToNat ip.1 : Int)
            some (JsonVal.num v, rest3)
          else
            let lit := (if sgn.1 then [minusC] else []) ++ ip.1 ++ fds ++ eds
            some (JsonVal.fnum (String.mk lit), rest3)

/-- Insert-or-overwrite for object members: a repeated key keeps its
original position and takes the new value, as in a Python dict. -/
def assocSet (kvs : List (String × JsonVal)) (k : String) (v : JsonVal) :
    List (String × JsonVal) :=
  match kvs with
  | [] => [(k, v)]
  | (k2, v2) :: rest => if k2 == k then (k2, v) :: rest else (k2, v2) :: assocSet rest k v

mutual

/-- One JSON value, preceded by optional whitespace.  The fuel argument
bounds the nesting recursion; json_loads supplies fuel larger than any
possible nesting depth of its input. -/
def parseVal : Nat → List Char → Option (JsonVal × List Char)
  | 0, _ => none
  | fuel + 1, cs =>
    match skipWs cs with
    | [] => none
    | c :: rest =>
      if c == lbraceC then
        match skipWs rest with
        | d :: rest2 =>
          if d == rbraceC then some (JsonVal.obj [], rest2)
          else parseMembers fuel [] (skipWs rest)
        | [] => none
      else if c == lbrackC then
        match skipWs rest with
        | d :: rest2 =>
          if d == rbrackC then some (JsonVal.arr [], rest2)
          else parseElems fuel [] (skipWs rest)
        | [] => none
      else if c == dquoteC then
        match parseStrAux [] rest with
        | some (s, r) => some (JsonVal.str s, r)
        | none => none
      else if startsWithL trueLit (c :: rest) then some (JsonVal.bool true, (c :: rest).drop 4)
      else if startsWithL falseLit (c :: rest) then some (JsonVal.bool false, (c :: rest).drop 5)
      else if startsWithL nullLit (c :: rest) then some (JsonVal.null, (c :: rest).drop 4)
      else parseNum (c :: rest)

/-- Members of an object, positioned at a key (no leading whitespace). -/
def parseMembers : Nat → List (String × JsonVal) → List Char →
    Option (JsonVal × List Char)
  | 0, _, _ => none
  | fuel + 1, acc, cs =>
    match cs with
    | [] => none
    | c :: rest =>
      if c == dquoteC then
        match parseStrAux [] rest with
        | some (k, r1) =>
          match skipWs r1 with
          | c2 :: r2 =>
            if c2 == colonC then
              match parseVal fuel r2 with
              | some (v, r3) =>
                match skipWs r3 with
                | c3 :: r4 =>
                  if c3 == commaC then parseMembers fuel (assocSet acc k v) (skipWs r4)
                  else if c3 == rbraceC then some (JsonVal.obj (assocSet acc k v), r4)
                  else none
                | [] => none
              | none => none
            else none
          | [] => none
        | none => none
      else none

/-- Elements of an array, positioned at a value. -/
def parseElems : Nat → List JsonVal → List Char → Option (JsonVal × List Char)
  | 0, _, _ => none
  | fuel + 1, acc, cs =>
    match parseVal fuel cs with
    | some (v, r1) =>
      match skipWs r1 with
      | c :: r2 =>
        if c == commaC then parseElems fuel (v :: acc) r2
        else if c == rbrackC then some (JsonVal.arr (v :: acc).reverse, r2)
        else none
      | [] => none
    | none => none

end

/-! ## Python exceptions -/

inductive PyExc where
  | jsonDecodeError
  | keyError (key : String)
  | typeError (msg : String)
  | attributeError (msg : String)
  | indexError
  | remote (msg : String)
deriving DecidableEq

/-- Model of json.loads: parse one JSON document, demand that only
whitespace remains, raise json.JSONDecodeError otherwise. -/
def json_loads (text : String) : Except PyExc JsonVal :=
  match parseVal (2 * text.length + 2) text.data with
  | some (v, rest) =>
    if (skipWs rest).isEmpty then .ok v else .error .jsonDecodeError
  | none => .error .jsonDecodeError

/-! ## The Structured-Response Extractor (src/app.py lines 161-172) -/

/-- Model of str.find: index of the first occurrence, -1 if absent. -/
def findIdxAux (c : Char) : Nat → List Char → Int
  | _, [] => -1
  | i, x :: rest => if x == c then (i : Int) else findIdxAux c (i + 1) rest

def strFind (s : String) (c : Char) : Int := findIdxAux c 0 s.data

/-- Model of str.rfind: index of the last occurrence, -1 if absent. -/
def rfindAux (c : Char) : Nat → Int → List Char → Int
  | _, best, [] => best
  | i, best, x :: rest => rfindAux c (i + 1) (if x == c then (i : Int) else best) rest

def strRfind (s : String) (c : Char) : Int := rfindAux c 0 (-1) s.data

/-- Model of the Python slice text[a : b+1] (0 ≤ a, b < length). -/
def strSlice (s : String) (a b : Nat) : String :=
  String.mk ((s.data.drop a).take (b + 1 - a))

/-- Model of a Python try/except-everything block with an else-less fall
through: run the body; on any exception run the handler. -/
def pyTry {α : Type} (body : Except PyExc α) (handler : PyExc → Except PyExc α) :
    Except PyExc α :=
  match body with
  | .ok a => .ok a
  | .error e => handler e

/-- src/app.py lines 161-172 verbatim: try json.loads(text); on exception
try the substring from the first open brace to the last close brace; on a
second exception, or when a brace is missing, return None. -/
def safe_json_parse (text : String) : Except PyExc (Option JsonVal) :=
  pyTry ((json_loads text).map some) fun _ =>
    pyTry
      (let s := strFind text lbraceC
       let e := strRfind text rbraceC
       if s != -1 && e != -1 then (json_loads (strSlice text s.toNat e.toNat)).map some
       else .ok none)
      fun _ => .ok none

/-- The value safe_json_parse hands to its callers (it never raises, so
the Except wrapper is vacuous; theorem safe_json_parse_never_raises). -/
def sjpVal (text : String) : Option JsonVal :=
  match safe_json_parse text with
  | .ok v => v
  | .error _ => none

/-! ## Python subscription, iteration and truthiness -/

def jsonLookup (kvs : List (String × JsonVal)) (k : String) : Option JsonVal :=
  match kvs with
  | [] => none
  | (k2, v) :: rest => if k2 == k then some v else jsonLookup rest k

/-- Python v[k] for a string key k: dict lookup, KeyError when absent,
TypeError on every non-dict value. -/
def pyGet (v : JsonVal) (k : String) : Except PyExc JsonVal :=
  match v with
  | .obj kvs =>
    match jsonLookup kvs k with
    | some x => .ok x
    | none => .error (.keyError k)
  | .str _ => .error (.typeError "string indices must be integers")
  | .arr _ => .error (.typeError "list indices must be integers, not str")
  | _ => .error (.typeError "object is not subscriptable")

/-- Python p[k] where p may be None (a failed extraction). -/
def pyGetOpt (p : Option JsonVal) (k : String) : Except PyExc JsonVal :=
  match p with
  | none => .error (.typeError "NoneType object is not subscriptable")
  | some v => pyGet v k

/-- Python v[i] for a nonnegative integer index. -/
def pyIndex (v : JsonVal) (i : Nat) : Except PyExc JsonVal :=
  match v with
  | .arr xs =>
    match xs.get? i with
    | some x => .ok x
    | none => .error .indexError
  | .str s =>
    match s.data.get? i with
    | some c => .ok (.str (String.mk [c]))
    | none => .error .indexError
  | .obj _ => .error (.keyError (toString i))
  | _ => .error (.typeError "object is not subscriptable")

/-- Python iteration (for x in v): lists yield elements, strings yield
one-character strings, dicts yield their keys, the rest raise. -/
def pyIter (v : JsonVal) : Except PyExc (List JsonVal) :=
  match v with
  | .arr xs => .ok xs
  | .str s => .ok (s.data.map fun c => .str (String.mk [c]))
  | .obj kvs => .ok (kvs.map fun kv => .str kv.1)
  | _ => .error (.typeError "object is not iterable")

/-- Python truthiness of a parsed value.  (A non-integer number is kept
symbolically, so its truthiness is approximated as true; the program only
tests truthiness of a whole parsed document, never of a float.) -/
def pyTruthy : JsonVal → Bool
  | .null => false
  | .bool b => b
  | .num n => n != 0
  | .fnum _ => true
  | .str s => !s.isEmpty
  | .arr xs => !xs.isEmpty
  | .obj kvs => !kvs.isEmpty

def pyTruthyOpt : Option JsonVal → Bool
  | none => false
  | some v => pyTruthy v

/-- The argument check performed by str.replace and str.join: a non-str
argument raises TypeError. -/
def asStr (v : JsonVal) : Except PyExc String :=
  match v with
  | .str s => .ok s
  | _ => .error (.typeError "argument must be str")

/-- Evaluation of a list comprehension whose body may raise. -/
def pyMapExcept (xs : List JsonVal) (f : JsonVal → Except PyExc JsonVal) :
    Except PyExc (List JsonVal) :=
  match xs with
  | [] => .ok []
  | x :: rest =>
    match f x with
    | .error e => .error e
    | .ok y =>
      match pyMapExcept rest f with
      | .error e => .error e
      | .ok ys => .ok (y :: ys)

/-- The element check str.join performs over a list: every element must be
a str. -/
def pyMapStr (xs : List JsonVal) : Except PyExc (List String) :=
  match xs with
  | [] => .ok []
  | x :: rest =>
    match asStr x with
    | .error e => .error e
    | .ok s =>
      match pyMapStr rest with
      | .error e => .error e
      | .ok ss => .ok (s :: ss)

/-! ## Classifier Selector configuration (src/app.py lines 116-149)

HAS_GEMINI records whether the import of google.generativeai succeeded;
the key flag records whether "GEMINI_API_KEY" is present in os.environ
after the sidebar ran. -/

structure Config where
  hasGemini : Bool
  hasKey : Bool
deriving DecidableEq

/-- The condition guarding every remote call and the detection-tab branch:
HAS_GEMINI and "GEMINI_API_KEY" in os.environ. -/
def geminiAvailable (cfg : Config) : Bool := cfg.hasGemini && cfg.hasKey

/-! ## Stage outcome dicts

Every gemini_* function returns either the dict with the single key
"error" mapped to "Gemini unavailable" (constructor unavailable) or the
dict with keys "raw" and "parsed" (constructor output).  The raw value is
kept as the response text (in the CLIP fallback the source stores the
predictions object there; only its presence matters to the claims). -/

inductive StageDict where
  | unavailable
  | output (raw : String) (parsed : Option JsonVal)

/-- Python d["parsed"] on a stage dict: the unavailable marker has no
"parsed" key, so subscription raises KeyError. -/
def stageGetParsed : StageDict → Except PyExc (Option JsonVal)
  | .unavailable => .error (.keyError "parsed")
  | .output _ p => .ok p

/-! ## The four gemini_* stage functions (src/app.py lines 193-356)

Each stage first returns the unavailable dict when the guard fails, then
builds its prompt (string templating with .replace, which demands str
arguments — the only fallible part of prompt construction), then performs
the single blocking model.generate_content round trip (the oracle), with
no try/except around it, and finally pairs the raw response text with the
extractor's result. -/

/-- Remote branch of gemini_species_analysis (lines 197-226). -/
def speciesRemote (remote : Except PyExc String) : Except PyExc StageDict :=
  match remote with
  | .error e => .error e
  | .ok t => .ok (.output t (sjpVal t))

def gemini_species_analysis (cfg : Config) (remote : Except PyExc String) :
    Except PyExc StageDict :=
  if geminiAvailable cfg then speciesRemote remote else .ok .unavailable

/-- csv_data built at lines 234-236 (pure, cannot raise). -/
def buildHistoryCsv (rows : List (String × Int)) : String :=
  "date,count\n" ++ String.intercalate "\n" (rows.map fun r => r.1 ++ "," ++ toString r.2)

/-- Remote branch of gemini_population_forecast (lines 234-265):
prompt.replace("NAME_HERE", species_name) raises unless species_name is a
str, then the call. -/
def forecastRemote (species : JsonVal) (history : List (String × Int))
    (remote : Except PyExc String) : Except PyExc StageDict :=
  let _csv := buildHistoryCsv history
  match asStr species with
  | .error e => .error e
  | .ok _ =>
    match remote with
    | .error e => .error e
    | .ok t => .ok (.output t (sjpVal t))

def gemini_population_forecast (cfg : Config) (species : JsonVal)
    (history : List (String × Int)) (remote : Except PyExc String) :
    Except PyExc StageDict :=
  if geminiAvailable cfg then forecastRemote species history remote
  else .ok .unavailable

/-- Remote branch of gemini_ecosystem_model (lines 273-315):
", ".join(species_list) raises unless every element is a str;
first_species is species_list[0] when nonempty, else the literal
"unknown species"; then the call. -/
def ecoRemote (species_list : List JsonVal) (context : String)
    (remote : Except PyExc String) : Except PyExc StageDict :=
  match pyMapStr species_list with
  | .error e => .error e
  | .ok names =>
    let _first :=
      match names.head? with
      | some n => n
      | none => "unknown species"
    let _ctx := context
    match remote with
    | .error e => .error e
    | .ok t => .ok (.output t (sjpVal t))

def gemini_ecosystem_model (cfg : Config) (species_list : List JsonVal)
    (context : String) (remote : Except PyExc String) : Except PyExc StageDict :=
  if geminiAvailable cfg then ecoRemote species_list context remote
  else .ok .unavailable

/-- Remote branch of gemini_recommendations (lines 323-356):
eco_json = json.dumps(eco_summary) always succeeds on extractor output and
feeds only the prompt; the replaces demand str species and status; then
the call. -/
def recsRemote (species status : JsonVal) (eco_summary : Option JsonVal)
    (remote : Except PyExc String) : Except PyExc StageDict :=
  let _eco := eco_summary
  match asStr species with
  | .error e => .error e
  | .ok _ =>
    match asStr status with
    | .error e => .error e
    | .ok _ =>
      match remote with
      | .error e => .error e
      | .ok t => .ok (.output t (sjpVal t))

def gemini_recommendations (cfg : Config) (species status : JsonVal)
    (eco_summary : Option JsonVal) (remote : Except PyExc String) :
    Except PyExc StageDict :=
  if geminiAvailable cfg then recsRemote species status eco_summary remote
  else .ok .unavailable

/-! ## The CLIP fallback branch (src/app.py lines 441-456) -/

/-- The label set handed to the local zero-shot classifier (line 443). -/
def clipLabels : List String := ["bear", "lion", "tiger", "wolf", "elephant", "deer"]

/-- The analysis dict synthesized from the top CLIP label (lines 447-456). -/
def fallbackParsed (top : String) : JsonVal :=
  .obj [("species_detected",
          .arr [.obj [("common_name", .str top), ("scientific_name", .str ""),
                      ("confidence", .str "medium")]]),
        ("count", .num 1),
        ("habitat_type", .str "unknown"),
        ("observations", .str "CLIP fallback"),
        ("recommendation_summary", .str "Observe habitat quality.")]

/-- preds = clip_pipe(img, labels); top = preds[0]["label"]; then the
synthesized dict.  preds is the ranked label list. -/
def fallbackAnalysis (preds : List String) : Except PyExc StageDict :=
  match preds with
  | [] => .error .indexError
  | top :: _ => .ok (.output "clip predictions" (some (fallbackParsed top)))

/-! ## Synthetic history generator (src/app.py lines 475-481) -/

/-- today.replace(day=1) - pd.DateOffset(months=i): the first day of the
month i months before month m of year y. -/
def monthsBack (y m i : Nat) : Nat × Nat :=
  ((12 * y + m - 1 - i) / 12, (12 * y + m - 1 - i) % 12 + 1)

def pad2 (n : Nat) : String := if n < 10 then "0" ++ toString n else toString n

def pad4 (n : Nat) : String :=
  if n < 10 then "000" ++ toString n
  else if n < 100 then "00" ++ toString n
  else if n < 1000 then "0" ++ toString n
  else toString n

/-- d.strftime("%Y-%m-%d") for the first day of a month. -/
def fmtMonthFirst (p : Nat × Nat) : String := pad4 p.1 ++ "-" ++ pad2 p.2 ++ "-01"

/-- hist built for i = 0..5 with count 120 - 12*i at the first of the
month i months back, then presented reversed (hist[::-1]).  The date
column holds the strftime STRINGS the loop produced. -/
def synthHistory (y m : Nat) : List (String × Int) :=
  ((List.range 6).map fun i =>
    (fmtMonthFirst (monthsBack y m i), (120 : Int) - 12 * i)).reverse

/-- A cell of the date column of the history frame df: the read_csv
branch (parse_dates=["date"]) yields pandas Timestamps, kept as their
%Y-%m-%d rendering, while the synthetic branch stores the plain strings
it formatted — pd.DataFrame does not coerce them. -/
inductive DateCell where
  | timestamp (iso : String)
  | str (s : String)
deriving DecidableEq

/-- r["date"].strftime("%Y-%m-%d"): defined on a Timestamp, but a plain
str has no strftime attribute, so the synthetic branch's string dates
raise AttributeError. -/
def pyStrftime : DateCell → Except PyExc String
  | .timestamp iso => .ok iso
  | .str _ => .error (.attributeError "str object has no attribute strftime")

/-- The history_list comprehension of lines 488-491: one dict per row of
df, serializing the date via strftime (fallible, see pyStrftime) and the
count via int() (the identity on the numeric counts modelled here); rows
are consumed in order and the first failure raises. -/
def buildHistoryList : List (DateCell × Int) → Except PyExc (List (String × Int))
  | [] => .ok []
  | (c, n) :: rest =>
    match pyStrftime c with
    | .error e => .error e
    | .ok s =>
      match buildHistoryList rest with
      | .error e => .error e
      | .ok t => .ok ((s, n) :: t)

/-! ## The Species Detection tab run (src/app.py lines 429-506) -/

/-- parsed["species_detected"][0][field], the chain each display line and
the auto-run species read evaluate. -/
def firstSpeciesField (parsed : Option JsonVal) (field : String) :
    Except PyExc JsonVal :=
  match pyGetOpt parsed "species_detected" with
  | .error e => .error e
  | .ok sd =>
    match pyIndex sd 0 with
    | .error e => .error e
    | .ok first => pyGet first field

/-- Lines 461-468: if parsed is truthy, evaluate the five displayed
f-strings in order (each can raise); otherwise show a warning. -/
def displayParsed (parsed : Option JsonVal) : Except PyExc Unit :=
  if pyTruthyOpt parsed then
    match firstSpeciesField parsed "common_name" with
    | .error e => .error e
    | .ok _ =>
      match firstSpeciesField parsed "scientific_name" with
      | .error e => .error e
      | .ok _ =>
        match firstSpeciesField parsed "confidence" with
        | .error e => .error e
        | .ok _ =>
          match pyGetOpt parsed "habitat_type" with
          | .error e => .error e
          | .ok _ =>
            match pyGetOpt parsed "observations" with
            | .error e => .error e
            | .ok _ => .ok ()
  else .ok ()

/-- The per-run session state (st.session_state), with one slot per stage
plus the history frame.  A slot is none while its stage has not stored a
dict this run. -/
structure SessionState where
  analysis : Option StageDict
  history : Option (List (DateCell × Int))
  forecast : Option StageDict
  ecosystem : Option StageDict
  recs : Option StageDict

def SessionState.empty : SessionState := ⟨none, none, none, none, none⟩

/-- Inputs of one Species Detection tab run with an uploaded image: the
configuration, the CLIP ranked labels, the optional uploaded history CSV
(rows as parsed by read_csv with parse_dates=["date"]: each date a
Timestamp, kept as its %Y-%m-%d rendering, each count numeric), the
auto-run checkbox, the current UTC year and month, and the four remote
oracles. -/
structure TabInputs where
  cfg : Config
  preds : List String
  historyCsv : Option (List (String × Int))
  autoRun : Bool
  todayYear : Nat
  todayMonth : Nat
  oDetect : Except PyExc String
  oForecast : Except PyExc String
  oEco : Except PyExc String
  oRecs : Except PyExc String

/-- Lines 486-505, the auto-run block: species =
parsed["species_detected"][0]["common_name"]; the history_list
comprehension serializing df (r["date"].strftime raises AttributeError on
the synthetic branch's string dates); forecast stage; the species_list
comprehension; ecosystem stage; status =
parsed["recommendation_summary"]; then the recommendations call whose
arguments read st.session_state["ecosystem"]["parsed"].  Session writes
performed before an exception persist. -/
def autoRunBlock (cfg : Config) (parsed : Option JsonVal)
    (df : List (DateCell × Int)) (st : SessionState)
    (oF oE oR : Except PyExc String) : SessionState × Option PyExc :=
  match firstSpeciesField parsed "common_name" with
  | .error e => (st, some e)
  | .ok species =>
    match buildHistoryList df with
    | .error e => (st, some e)
    | .ok history_list =>
      match gemini_population_forecast cfg species history_list oF with
      | .error e => (st, some e)
      | .ok fc =>
        let st1 := { st with forecast := some fc }
        match (match pyGetOpt parsed "species_detected" with
               | .error e => .error e
               | .ok sd =>
                 match pyIter sd with
                 | .error e => .error e
                 | .ok xs => pyMapExcept xs fun s => pyGet s "common_name" :
               Except PyExc (List JsonVal)) with
        | .error e => (st1, some e)
        | .ok species_list =>
          match gemini_ecosystem_model cfg species_list "" oE with
          | .error e => (st1, some e)
          | .ok eco =>
            let st2 := { st1 with ecosystem := some eco }
            match pyGetOpt parsed "recommendation_summary" with
            | .error e => (st2, some e)
            | .ok status =>
              match (match st2.ecosystem with
                     | none => .error (.keyError "ecosystem")
                     | some d => stageGetParsed d :
                     Except PyExc (Option JsonVal)) with
              | .error e => (st2, some e)
              | .ok ecoParsed =>
                match gemini_recommendations cfg species status ecoParsed oR with
                | .error e => (st2, some e)
                | .ok rc => ({ st2 with recs := some rc }, none)

/-- One run of the Species Detection tab body with an uploaded image
(lines 429-506): detection via the selected capability, the parsed
display, history handling, then the auto-run block when enabled.  Returns
the session state accumulated so far together with the exception, if any,
that escaped the tab code. -/
def runDetectionTab (inp : TabInputs) : SessionState × Option PyExc :=
  let analysisE :=
    if geminiAvailable inp.cfg then gemini_species_analysis inp.cfg inp.oDetect
    else fallbackAnalysis inp.preds
  match analysisE with
  | .error e => (SessionState.empty, some e)
  | .ok analysis =>
    let st1 := { SessionState.empty with analysis := some analysis }
    match stageGetParsed analysis with
    | .error e => (st1, some e)
    | .ok parsed =>
      match displayParsed parsed with
      | .error e => (st1, some e)
      | .ok _ =>
        let df :=
          match inp.historyCsv with
          | some rows => rows.map fun r => (DateCell.timestamp r.1, r.2)
          | none =>
            (synthHistory inp.todayYear inp.todayMonth).map fun r =>
              (DateCell.str r.1, r.2)
        let st2 := { st1 with history := some df }
        if inp.autoRun then
          autoRunBlock inp.cfg parsed df st2 inp.oForecast inp.oEco inp.oRecs
        else (st2, none)

/-- A stage slot counts as populated when it holds a dict with a non-null
parsed structured value. -/
def stagePopulated : Option StageDict → Bool
  | some (.output _ (some _)) => true
  | _ => false

def populatedStages (st : SessionState) : Nat :=
  (if stagePopulated st.analysis then 1 else 0) +
  (if stagePopulated st.forecast then 1 else 0) +
  (if stagePopulated st.ecosystem then 1 else 0) +
  (if stagePopulated st.recs then 1 else 0)

/-! ## The GBIF ingestion collaborator (src/gaianet-ingestor/main.py) -/

/-- A Gregorian calendar date. -/
structure Date where
  year : Nat
  month : Nat
  day : Nat
deriving DecidableEq

def isLeap (y : Nat) : Bool :=
  (y % 4 == 0 && y % 100 != 0) || (y % 400 == 0)

def daysInMonth (y m : Nat) : Nat :=
  if m == 2 then (if isLeap y then 29 else 28)
  else if m == 4 || m == 6 || m == 9 || m == 11 then 30
  else 31

def ValidDate (d : Date) : Prop :=
  1 ≤ d.year ∧ 1 ≤ d.month ∧ d.month ≤ 12 ∧ 1 ≤ d.day ∧
    d.day ≤ daysInMonth d.year d.month

instance (d : Date) : Decidable (ValidDate d) := by
  unfold ValidDate
  infer_instance

/-- The calendar day before d. -/
def prevDay (d : Date) : Date :=
  if 1 < d.day then ⟨d.year, d.month, d.day - 1⟩
  else if 1 < d.month then ⟨d.year, d.month - 1, daysInMonth d.year (d.month - 1)⟩
  else ⟨d.year - 1, 12, 31⟩

def monthOffs : Nat → Nat
  | 1 => 0
  | 2 => 31
  | 3 => 59
  | 4 => 90
  | 5 => 120
  | 6 => 151
  | 7 => 181
  | 8 => 212
  | 9 => 243
  | 10 => 273
  | 11 => 304
  | 12 => 334
  | _ => 0

def daysBeforeMonth (y m : Nat) : Nat :=
  monthOffs m + (if 2 < m then (if isLeap y then 1 else 0) else 0)

/-- Proleptic Gregorian ordinal of a date (toRD ⟨1,1,1⟩ = 1, matching
Python date.toordinal): an independent linear measure of calendar days,
used to state what "exactly n days earlier" means. -/
def toRD (d : Date) : Int :=
  365 * ((d.year : Int) - 1) + (((d.year - 1) / 4 : Nat) : Int)
    - (((d.year - 1) / 100 : Nat) : Int) + (((d.year - 1) / 400 : Nat) : Int)
    + (daysBeforeMonth d.year d.month : Int) + (d.day : Int)

/-- A Python naive datetime, as produced by datetime.utcnow(). -/
structure PyDateTime where
  year : Nat
  month : Nat
  day : Nat
  hour : Nat
  minute : Nat
  second : Nat
  micro : Nat
deriving DecidableEq

def PyDateTime.date (t : PyDateTime) : Date := ⟨t.year, t.month, t.day⟩

def subDaysDate (n : Nat) (d : Date) : Date := prevDay^[n] d

/-- datetime - timedelta(days=n): the calendar date moves back n days, the
time of day is untouched. -/
def pyTimedeltaSubDays (n : Nat) (t : PyDateTime) : PyDateTime :=
  ⟨(subDaysDate n t.date).year, (subDaysDate n t.date).month,
   (subDaysDate n t.date).day, t.hour, t.minute, t.second, t.micro⟩

def pad6 (n : Nat) : String :=
  if n < 10 then "00000" ++ toString n
  else if n < 100 then "0000" ++ toString n
  else if n < 1000 then "000" ++ toString n
  else if n < 10000 then "00" ++ toString n
  else if n < 100000 then "0" ++ toString n
  else toString n

/-- datetime.isoformat(): YYYY-MM-DDTHH:MM:SS, with a .ffffff microsecond
part exactly when microseconds are nonzero. -/
def isoformat (t : PyDateTime) : String :=
  pad4 t.year ++ "-" ++ pad2 t.month ++ "-" ++ pad2 t.day ++ "T" ++ pad2 t.hour
    ++ ":" ++ pad2 t.minute ++ ":" ++ pad2 t.second
    ++ (if t.micro == 0 then "" else "." ++ pad6 t.micro)

/-- One clause of the GBIF query predicate body. -/
inductive GbifPred where
  | within (key value : String)
  | isNotNull (key : String)
  | inValues (key : String) (values : List String)
deriving DecidableEq

structure GbifRequestBody where
  creator : String
  notificationAddresses : List String
  format : String
  predicates : List GbifPred
deriving DecidableEq

/-- main.py lines 14-40: start_date = (datetime.utcnow() -
timedelta(days=days_back)).isoformat() + "Z"; the and-predicate holds the
eventDate range clause (value start_date ++ ","), the two isNotNull
coordinate clauses and the three-value basisOfRecord allow-list.  now is
the value of datetime.utcnow(). -/
def define_gbif_query_predicate (user email : String) (now : PyDateTime)
    (days_back : Nat) : GbifRequestBody :=
  let start_date := isoformat (pyTimedeltaSubDays days_back now) ++ "Z"
  { creator := user
    notificationAddresses := [email]
    format := "DWCA"
    predicates :=
      [GbifPred.within "eventDate" (start_date ++ ","),
       GbifPred.isNotNull "decimalLatitude",
       GbifPred.isNotNull "decimalLongitude",
       GbifPred.inValues "basisOfRecord"
         ["HUMAN_OBSERVATION", "MACHINE_OBSERVATION", "PRESERVED_SPECIMEN"]] }

/-- The outcome of requests.post: a response with a status code and body
text, or a raised connection exception. -/
inductive HttpResult where
  | response (status : Nat) (body : String)
  | connError (msg : String)
deriving DecidableEq

/-- Python str.strip(). -/
def pyStrip (s : String) : String :=
  String.mk (((s.data.dropWhile Char.isWhitespace).reverse.dropWhile
    Char.isWhitespace).reverse)

/-- main.py lines 43-76, the Cloud Run entry point: build the predicate
body, post it (the oracle), then on 202 return the stripped download key
to the caller with HTTP 200; on any other status log the upstream status
and body and return a fixed generic failure message with HTTP 500; on a
connection exception return the error message with HTTP 500.  The result
is the caller-visible (message, status) pair paired with the printed log
lines.  The password is only used inside the posted request. -/
def ingest_gbif_data (user pw email : String) (now : PyDateTime)
    (http : HttpResult) : (String × Nat) × List String :=
  let _body := define_gbif_query_predicate user email now 7
  let _pw := pw
  match http with
  | .connError e => (("Error connecting to GBIF API: " ++ e, 500), [])
  | .response stat body =>
    if stat == 202 then
      (("GBIF Download Request submitted. Key: " ++ pyStrip body, 200),
       ["GBIF Download initiated successfully. Key: " ++ pyStrip body])
    else
      (("GBIF Request failed. Check logs for details.", 500),
       ["GBIF Download Request failed. Status: " ++ toString stat
          ++ ". Response: " ++ body])

/-- Substring test (used to state that the generic failure message does
not carry the upstream status or body). -/
def containsSubAux (needle : List Char) : List Char → Bool
  | [] => startsWithL needle []
  | c :: rest => startsWithL needle (c :: rest) || containsSubAux needle rest

def strContains (hay needle : String) : Bool := containsSubAux needle.data hay.data

/-! ## Concrete example fixtures

A well-formed Detection response of the shape the prompt of
gemini_species_analysis requests, used as a concrete input by witnesses. -/

theorem pyMapStr_strs (ns : List String) :
    pyMapStr (ns.map JsonVal.str) = Except.ok ns := by
  induction ns with
  | nil => rfl
  | cons n rest ih => simp [pyMapStr, asStr, ih]

theorem monthsBack_key (y m i : Nat) (hy : 1 ≤ y) (hm : 1 ≤ m) (hi : i ≤ 5) :
    12 * (monthsBack y m i).1 + (monthsBack y m i).2 = 12 * y + m - i := by
  unfold monthsBack
  have h := Nat.div_add_mod (12 * y + m - 1 - i) 12
  have h2 : (12 * y + m - 1 - i) % 12 < 12 := Nat.mod_lt _ (by norm_num)
  simp only
  omega

theorem monthsBack_zero (y m : Nat) (hm1 : 1 ≤ m) (hm2 : m ≤ 12) :
    monthsBack y m 0 = (y, m) := by
  unfold monthsBack
  have h1 : 12 * y + m - 1 - 0 = 12 * y + (m - 1) := by omega
  rw [h1]
  have h2 : (12 * y + (m - 1)) / 12 = y := by
    rw [Nat.mul_add_div (by norm_num)]
    rw [Nat.div_eq_of_lt (by omega)]
    omega
  have h3 : (12 * y + (m - 1)) % 12 = m - 1 := by
    rw [Nat.mul_add_mod]
    exact Nat.mod_eq_of_lt (by omega)
  rw [h2, h3]
  have : m - 1 + 1 = m := by omega
  rw [this]

/-- The month-table consistency behind the calendar ordinal: stepping
from the last day of month m-1 to the first day of month m. -/
theorem daysBeforeMonth_step (y m : Nat) (h1 : 2 ≤ m) (h2 : m ≤ 12) :
    daysBeforeMonth y (m - 1) + daysInMonth y (m - 1) = daysBeforeMonth y m := by
  interval_cases m <;>
    cases h : isLeap y <;>
      simp [daysBeforeMonth, daysInMonth, monthOffs, h]

/-- The ordinal of the first representable date. -/
theorem toRD_111 : toRD ⟨1, 1, 1⟩ = 1 := rfl

/-- prevDay moves the ordinal down by exactly one on valid dates after
the first. -/
theorem toRD_prevDay (d : Date) (hv : ValidDate d) (hne : d ≠ ⟨1, 1, 1⟩) :
    toRD (prevDay d) = toRD d - 1 := by
  obtain ⟨y, m, dd⟩ := d
  obtain ⟨hy, hm1, hm2, hd1, hd2⟩ := hv
  dsimp only at hy hm1 hm2 hd1 hd2
  unfold prevDay
  by_cases h1 : 1 < dd
  · simp only [if_pos h1]
    unfold toRD
    simp only
    omega
  · simp only [if_neg h1]
    by_cases h2 : 1 < m
    · simp only [if_pos h2]
      have hdd : dd = 1 := by omega
      subst hdd
      have hstep := daysBeforeMonth_step y m (by omega) hm2
      unfold toRD
      simp only
      omega
    · have hm : m = 1 := by omega
      have hdd : dd = 1 := by omega
      subst hm
      subst hdd
      have hy2 : 2 ≤ y := by
        by_contra hlt
        push_neg at hlt
        have hy1 : y = 1 := by omega
        subst hy1
        exact hne rfl
      simp only [if_neg h2]
      have hb1 : daysBeforeMonth y 1 = 0 := rfl
      cases hle : isLeap (y - 1) with
      | false =>
        have hmod : ¬(((y - 1) % 4 = 0 ∧ (y - 1) % 100 ≠ 0) ∨ (y - 1) % 400 = 0) := by
          intro hc
          have ht : isLeap (y - 1) = true := by
            simp only [isLeap, Bool.or_eq_true, Bool.and_eq_true, beq_iff_eq, bne_iff_ne]
            exact hc
          rw [hle] at ht
          exact Bool.noConfusion ht
        have hb12 : daysBeforeMonth (y - 1) 12 = 334 := by
          unfold daysBeforeMonth
          rw [hle]
          rfl
        unfold toRD
        dsimp only
        rw [hb1, hb12]
        push_neg at hmod
        obtain ⟨hmod1, hmod2⟩ := hmod
        omega
      | true =>
        have hmod : ((y - 1) % 4 = 0 ∧ (y - 1) % 100 ≠ 0) ∨ (y - 1) % 400 = 0 := by
          have ht := hle
          simp only [isLeap, Bool.or_eq_true, Bool.and_eq_true, beq_iff_eq, bne_iff_ne] at ht
          exact ht
        have hb12 : daysBeforeMonth (y - 1) 12 = 335 := by
          unfold daysBeforeMonth
          rw [hle]
          rfl
        unfold toRD
        dsimp only
        rw [hb1, hb12]
        rcases hmod with ⟨h4, h100⟩ | h400
        · omega
        · omega

/-- prevDay preserves validity on valid dates after the first. -/
theorem prevDay_valid (d : Date) (hv : ValidDate d) (hne : d ≠ ⟨1, 1, 1⟩) :
    ValidDate (prevDay d) := by
  obtain ⟨y, m, dd⟩ := d
  obtain ⟨hy, hm1, hm2, hd1, hd2⟩ := hv
  dsimp only at hy hm1 hm2 hd1 hd2
  unfold prevDay ValidDate
  by_cases h1 : 1 < dd
  · simp only [if_pos h1]
    exact ⟨hy, hm1, hm2, by omega, by omega⟩
  · simp only [if_neg h1]
    by_cases h2 : 1 < m
    · simp only [if_pos h2]
      refine ⟨hy, by omega, by omega, ?_, le_refl _⟩
      dsimp only
      unfold daysInMonth
      split
      · split <;> omega
      · split <;> omega
    · simp only [if_neg h2]
      have hy2 : 2 ≤ y := by
        by_contra hlt
        push_neg at hlt
        have hy1 : y = 1 := by omega
        subst hy1
        have hm' : m = 1 := by omega
        have hd' : dd = 1 := by omega
        subst hm'
        subst hd'
        exact hne rfl
      refine ⟨by omega, by omega, by omega, by omega, ?_⟩
      dsimp only
      have : daysInMonth (y - 1) 12 = 31 := rfl
      omega

/-- A date with ordinal at least 2 is not the first date. -/
theorem toRD_pos_ne (x : Date) (hrd : 2 ≤ toRD x) : x ≠ ⟨1, 1, 1⟩ := by
  intro he
  rw [he] at hrd
  norm_num [toRD_111] at hrd

/-- Subtracting n days moves the ordinal down by exactly n and stays
valid, when n days fit. -/
theorem subDaysDate_toRD (n : Nat) (d : Date) (hv : ValidDate d)
    (h : (n : Int) < toRD d) :
    ValidDate (subDaysDate n d) ∧ toRD (subDaysDate n d) = toRD d - n := by
  induction n with
  | zero =>
    refine ⟨hv, ?_⟩
    simp [subDaysDate]
  | succ k ih =>
    have hk : (k : Int) < toRD d := by push_cast at h ⊢; omega
    obtain ⟨hvk, hrk⟩ := ih hk
    have hne : subDaysDate k d ≠ ⟨1, 1, 1⟩ := by
      refine toRD_pos_ne _ ?_
      rw [hrk]
      push_cast at h
      omega
    have hstep : subDaysDate (k + 1) d = prevDay (subDaysDate k d) :=
      Function.iterate_succ_apply' prevDay k d
    rw [hstep]
    refine ⟨prevDay_valid _ hvk hne, ?_⟩
    rw [toRD_prevDay _ hvk hne, hrk]
    push_cast
    ring

/-- C1: for every input string the Structured-Response Extractor
safe_json_parse returns a value (a parsed structured value or None) and
never lets an exception escape: both json.loads attempts sit inside
catch-all try/except blocks whose handlers return normally. -/
theorem safe_json_parse_never_raises (text : String) :
    ∃ r, safe_json_parse text = Except.ok r := by
  unfold safe_json_parse pyTry
  split
  · exact ⟨_, rfl⟩
  · split
    · exact ⟨_, rfl⟩
    · exact ⟨none, rfl⟩

/-- C2: safe_json_parse implements the three-tier policy: a string that
parses whole is returned as parsed; otherwise the substring from the first
open brace to the last close brace is parsed (its failure yielding None);
with a brace missing the result is None; and on the three concrete example
inputs it returns the object, None, and None respectively. -/
theorem safe_json_parse_three_tier :
    (∀ text v, json_loads text = Except.ok v → sjpVal text = some v) ∧
    (∀ text e s t, json_loads text = Except.error e →
      strFind text lbraceC = s → s ≠ -1 →
      strRfind text rbraceC = t → t ≠ -1 →
      sjpVal text = (match json_loads (strSlice text s.toNat t.toNat) with
        | Except.ok v => some v
        | Except.error _ => none)) ∧
    (∀ text e, json_loads text = Except.error e →
      (strFind text lbraceC = -1 ∨ strRfind text rbraceC = -1) →
      sjpVal text = none) ∧
    sjpVal "noise \x7b\"a\":1\x7d trailing" = some (JsonVal.obj [("a", JsonVal.num 1)]) ∧
    sjpVal "\x7ba: \x7d" = none ∧
    sjpVal "" = none := by
  refine ⟨?_, ?_, ?_, rfl, rfl, rfl⟩
  · intro text v h
    simp [sjpVal, safe_json_parse, pyTry, h, Except.map]
  · intro text e s t h hs hsne ht htne
    simp only [sjpVal, safe_json_parse, pyTry, h, Except.map, hs, ht]
    have hb : (s != -1 && t != -1) = true := by
      simp [bne_iff_ne, hsne, htne]
    rw [hb]
    simp only [if_true]
    cases h2 : json_loads (strSlice text s.toNat t.toNat) <;> simp [h2]
  · intro text e h hor
    simp only [sjpVal, safe_json_parse, pyTry, h, Except.map]
    have hb : ((strFind text lbraceC != -1) && (strRfind text rbraceC != -1)) = false := by
      rcases hor with h1 | h1 <;> simp [h1]
    rw [hb]
    simp

/-- Witness for C2: the hypotheses of the second and third tier hold at
the example inputs and the theorem evaluates there. -/
theorem safe_json_parse_three_tier_witness :
    sjpVal "noise \x7b\"a\":1\x7d trailing" =
      (match json_loads (strSlice "noise \x7b\"a\":1\x7d trailing" (Int.toNat 6) (Int.toNat 12)) with
        | Except.ok v => some v
        | Except.error _ => none) ∧
    sjpVal "xyz" = none :=
  ⟨safe_json_parse_three_tier.2.1 "noise \x7b\"a\":1\x7d trailing"
      PyExc.jsonDecodeError 6 12 rfl rfl (by decide) rfl (by decide),
   safe_json_parse_three_tier.2.2.1 "xyz" PyExc.jsonDecodeError rfl (Or.inl rfl)⟩

/-- C3 counterexample: with the Gemini SDK import failed (HAS_GEMINI
false) but an API key configured, a stage call takes the unavailable path,
not the remote path, so selection is not a function of credential presence
alone. -/
theorem classifier_selection_cex :
    gemini_species_analysis ⟨false, true⟩ (Except.ok "resp") =
      Except.ok StageDict.unavailable ∧
    speciesRemote (Except.ok "resp") =
      Except.ok (StageDict.output "resp" (sjpVal "resp")) ∧
    (Except.ok StageDict.unavailable : Except PyExc StageDict) ≠
      Except.ok (StageDict.output "resp" (sjpVal "resp")) := by
  refine ⟨rfl, rfl, ?_⟩
  intro h
  exact StageDict.noConfusion (Except.ok.inj h)

/-- C3 amended: selection is a deterministic pure function of the pair
(SDK import succeeded, key configured): when either is missing every stage
call returns the unavailable dict whatever the oracle would answer (no
remote call), when both hold every stage call takes its remote branch, and
two runs agreeing on that configuration state make identical selections. -/
theorem classifier_selection_pure
    (cfg cfg2 : Config) (species status : JsonVal) (species_list : List JsonVal)
    (history : List (String × Int)) (context : String) (eco : Option JsonVal)
    (o1 o2 o3 o4 : Except PyExc String) :
    (geminiAvailable cfg = false →
      gemini_species_analysis cfg o1 = Except.ok StageDict.unavailable ∧
      gemini_population_forecast cfg species history o2 = Except.ok StageDict.unavailable ∧
      gemini_ecosystem_model cfg species_list context o3 = Except.ok StageDict.unavailable ∧
      gemini_recommendations cfg species status eco o4 = Except.ok StageDict.unavailable) ∧
    (geminiAvailable cfg = true →
      gemini_species_analysis cfg o1 = speciesRemote o1 ∧
      gemini_population_forecast cfg species history o2 = forecastRemote species history o2 ∧
      gemini_ecosystem_model cfg species_list context o3 = ecoRemote species_list context o3 ∧
      gemini_recommendations cfg species status eco o4 = recsRemote species status eco o4) ∧
    (geminiAvailable cfg = geminiAvailable cfg2 →
      gemini_species_analysis cfg o1 = gemini_species_analysis cfg2 o1 ∧
      gemini_population_forecast cfg species history o2 =
        gemini_population_forecast cfg2 species history o2 ∧
      gemini_ecosystem_model cfg species_list context o3 =
        gemini_ecosystem_model cfg2 species_list context o3 ∧
      gemini_recommendations cfg species status eco o4 =
        gemini_recommendations cfg2 species status eco o4) := by
  refine ⟨fun h => ?_, fun h => ?_, fun h => ?_⟩
  · exact ⟨by simp [gemini_species_analysis, h],
      by simp [gemini_population_forecast, h],
      by simp [gemini_ecosystem_model, h],
      by simp [gemini_recommendations, h]⟩
  · exact ⟨by simp [gemini_species_analysis, h],
      by simp [gemini_population_forecast, h],
      by simp [gemini_ecosystem_model, h],
      by simp [gemini_recommendations, h]⟩
  · exact ⟨by simp [gemini_species_analysis, h],
      by simp [gemini_population_forecast, h],
      by simp [gemini_ecosystem_model, h],
      by simp [gemini_recommendations, h]⟩

/-- Witness for C3: the selection theorem evaluated in a degraded and in a
fully configured run. -/
theorem classifier_selection_pure_witness :
    gemini_species_analysis ⟨true, false⟩ (Except.ok "r") =
      Except.ok StageDict.unavailable ∧
    gemini_species_analysis ⟨true, true⟩ (Except.ok "r") =
      speciesRemote (Except.ok "r") :=
  ⟨((classifier_selection_pure ⟨true, false⟩ ⟨true, false⟩ (JsonVal.str "s")
      (JsonVal.str "t") [] [] "" none (Except.ok "r") (Except.ok "r")
      (Except.ok "r") (Except.ok "r")).1 rfl).1,
   ((classifier_selection_pure ⟨true, true⟩ ⟨true, true⟩ (JsonVal.str "s")
      (JsonVal.str "t") [] [] "" none (Except.ok "r") (Except.ok "r")
      (Except.ok "r") (Except.ok "r")).2.1 rfl).1⟩

/-- C5 counterexample: with Gemini configured, an exception raised by the
remote call inside gemini_species_analysis escapes the stage function as
an exception instead of being converted into an unavailable or null stage
outcome: there is no try/except around model.generate_content. -/
theorem remote_failure_propagates_cex :
    gemini_species_analysis ⟨true, true⟩ (Except.error (PyExc.remote "network timeout")) =
      Except.error (PyExc.remote "network timeout") ∧
    gemini_species_analysis ⟨true, true⟩ (Except.error (PyExc.remote "network timeout")) ≠
      Except.ok StageDict.unavailable := by
  refine ⟨rfl, ?_⟩
  intro h
  exact Except.noConfusion h

/-- C5 amended: a failure of the remote invocation is NOT caught at the
stage boundary: in every configured stage call it propagates out of the
stage function unchanged (prompt construction succeeding); only a missing
configuration produces the unavailable outcome, and the single blocking
call is never retried. -/
theorem remote_failure_propagates (cfg : Config) (e : PyExc)
    (name statusStr context : String) (history : List (String × Int))
    (names : List String) (eco : Option JsonVal)
    (hav : geminiAvailable cfg = true) :
    gemini_species_analysis cfg (Except.error e) = Except.error e ∧
    gemini_population_forecast cfg (JsonVal.str name) history (Except.error e) =
      Except.error e ∧
    gemini_ecosystem_model cfg (names.map JsonVal.str) context (Except.error e) =
      Except.error e ∧
    gemini_recommendations cfg (JsonVal.str name) (JsonVal.str statusStr) eco
      (Except.error e) = Except.error e := by
  refine ⟨?_, ?_, ?_, ?_⟩
  · simp [gemini_species_analysis, hav, speciesRemote]
  · simp [gemini_population_forecast, hav, forecastRemote, asStr]
  · simp [gemini_ecosystem_model, hav, ecoRemote, pyMapStr_strs]
  · simp [gemini_recommendations, hav, recsRemote, asStr]

/-- Witness for C5: the propagation theorem evaluated in a configured run
with a failing network call. -/
theorem remote_failure_propagates_witness :
    gemini_species_analysis ⟨true, true⟩ (Except.error (PyExc.remote "quota")) =
      Except.error (PyExc.remote "quota") :=
  (remote_failure_propagates ⟨true, true⟩ (PyExc.remote "quota") "wolf" "ok" ""
    [] [] none rfl).1

/-- C4: evaluation of the degraded scenario (no API key, auto-run on,
CLIP top label "wolf").  Detection completes via the fallback with one
species record at confidence "medium" flagged "CLIP fallback", but the
run never reaches the claimed end state on either history branch: with no
history CSV, the history_list serialization r["date"].strftime raises
AttributeError on the synthetic frame's string dates before any later
stage runs, so Forecast/Ecosystem/Recommendations store nothing; with an
uploaded CSV, Forecast and Ecosystem store the unavailable dict and then
st.session_state["ecosystem"]["parsed"] raises KeyError("parsed") — the
unavailable dict has no "parsed" key — so Recommendations never reports
unavailable.  In both runs the orchestrator aborts with an exception and
exactly one stage (Detection) is populated at that point. -/
theorem degraded_auto_run_never_completes :
    runDetectionTab ⟨⟨true, false⟩, ["wolf", "bear", "deer"], none, true, 2025, 10,
        Except.error (PyExc.remote "no network"), Except.error (PyExc.remote "no network"),
        Except.error (PyExc.remote "no network"), Except.error (PyExc.remote "no network")⟩ =
      (⟨some (StageDict.output "clip predictions" (some (fallbackParsed "wolf"))),
        some ((synthHistory 2025 10).map fun r => (DateCell.str r.1, r.2)),
        none, none, none⟩,
       some (PyExc.attributeError "str object has no attribute strftime")) ∧
    runDetectionTab ⟨⟨true, false⟩, ["wolf", "bear", "deer"],
        some [("2025-01-01", 100), ("2025-02-01", 90)], true, 2025, 10,
        Except.error (PyExc.remote "no network"), Except.error (PyExc.remote "no network"),
        Except.error (PyExc.remote "no network"), Except.error (PyExc.remote "no network")⟩ =
      (⟨some (StageDict.output "clip predictions" (some (fallbackParsed "wolf"))),
        some [(DateCell.timestamp "2025-01-01", 100), (DateCell.timestamp "2025-02-01", 90)],
        some StageDict.unavailable, some StageDict.unavailable, none⟩,
       some (PyExc.keyError "parsed")) ∧
    populatedStages
      (runDetectionTab ⟨⟨true, false⟩, ["wolf", "bear", "deer"], none, true, 2025, 10,
        Except.error (PyExc.remote "no network"), Except.error (PyExc.remote "no network"),
        Except.error (PyExc.remote "no network"), Except.error (PyExc.remote "no network")⟩).1 = 1 ∧
    populatedStages
      (runDetectionTab ⟨⟨true, false⟩, ["wolf", "bear", "deer"],
        some [("2025-01-01", 100), ("2025-02-01", 90)], true, 2025, 10,
        Except.error (PyExc.remote "no network"), Except.error (PyExc.remote "no network"),
        Except.error (PyExc.remote "no network"), Except.error (PyExc.remote "no network")⟩).1 = 1 ∧
    firstSpeciesField (some (fallbackParsed "wolf")) "common_name" =
      Except.ok (JsonVal.str "wolf") ∧
    firstSpeciesField (some (fallbackParsed "wolf")) "confidence" =
      Except.ok (JsonVal.str "medium") ∧
    pyGet (fallbackParsed "wolf") "observations" = Except.ok (JsonVal.str "CLIP fallback") :=
  ⟨rfl, rfl, rfl, rfl, rfl, rfl, rfl⟩

/-- C7 counterexample: at the fixed current date 2025-10, the synthetic
history is six samples whose counts from oldest to newest are 60, 72, 84,
96, 108, 120 — not 120, 108, 96, 84, 72, 60 as claimed (the source counts
backward from the current month starting at 120). -/
theorem synth_history_counts_cex :
    (synthHistory 2025 10).map Prod.snd = [60, 72, 84, 96, 108, 120] ∧
    (synthHistory 2025 10).map Prod.snd ≠ [120, 108, 96, 84, 72, 60] ∧
    (synthHistory 2025 10).map Prod.fst =
      ["2025-05-01", "2025-06-01", "2025-07-01", "2025-08-01", "2025-09-01", "2025-10-01"] :=
  ⟨rfl, by decide, rfl⟩

/-- C7 amended: for a fixed current date the generator is deterministic
and order-correct: exactly six monthly samples, ending at the first day of
the current month, strictly increasing in date (their year/month keys
strictly increase), with counts 60, 72, 84, 96, 108, 120 from oldest to
newest — that is, 120 decreasing by 12 per month going backward from the
current month. -/
theorem synth_history_amended (y m : Nat) (hy : 1 ≤ y) (hm1 : 1 ≤ m) (hm2 : m ≤ 12) :
    synthHistory y m =
      [(fmtMonthFirst (monthsBack y m 5), 60), (fmtMonthFirst (monthsBack y m 4), 72),
       (fmtMonthFirst (monthsBack y m 3), 84), (fmtMonthFirst (monthsBack y m 2), 96),
       (fmtMonthFirst (monthsBack y m 1), 108), (fmtMonthFirst (y, m), 120)] ∧
    (synthHistory y m).length = 6 ∧
    (∀ i, i < 5 →
      12 * (monthsBack y m (i + 1)).1 + (monthsBack y m (i + 1)).2 <
        12 * (monthsBack y m i).1 + (monthsBack y m i).2) := by
  refine ⟨?_, rfl, ?_⟩
  · rw [← monthsBack_zero y m hm1 hm2]
    rfl
  · intro i hi
    rw [monthsBack_key y m (i + 1) hy hm1 (by omega),
        monthsBack_key y m i hy hm1 (by omega)]
    omega

/-- Witness for C7: the amended theorem evaluated at the fixed current
date 2025-10. -/
theorem synth_history_amended_witness :
    synthHistory 2025 10 =
      [(fmtMonthFirst (monthsBack 2025 10 5), 60), (fmtMonthFirst (monthsBack 2025 10 4), 72),
       (fmtMonthFirst (monthsBack 2025 10 3), 84), (fmtMonthFirst (monthsBack 2025 10 2), 96),
       (fmtMonthFirst (monthsBack 2025 10 1), 108), (fmtMonthFirst (2025, 10), 120)] ∧
    12 * (monthsBack 2025 10 1).1 + (monthsBack 2025 10 1).2 <
      12 * (monthsBack 2025 10 0).1 + (monthsBack 2025 10 0).2 :=
  ⟨(synth_history_amended 2025 10 (by decide) (by decide) (by decide)).1,
   (synth_history_amended 2025 10 (by decide) (by decide) (by decide)).2.2 0 (by decide)⟩

/-- C8 counterexample: a response text that is valid JSON with an empty
species_detected list extracts successfully (parsed non-null), so a
successful extraction does not guarantee a nonempty species sequence and
the downstream first-entry read is not always defined. -/
theorem species_nonempty_cex :
    sjpVal "\x7b\"species_detected\": []\x7d" =
      some (JsonVal.obj [("species_detected", JsonVal.arr [])]) ∧
    pyGet (JsonVal.obj [("species_detected", JsonVal.arr [])]) "species_detected" =
      Except.ok (JsonVal.arr []) :=
  ⟨rfl, rfl⟩

/-- C8 amended: the guarantee holds for the fallback path only: the dict
the CLIP branch synthesizes always carries exactly one species record, so
its first-entry read is defined; a remote extraction can parse
successfully with an empty (or missing) species_detected value. -/
theorem fallback_species_singleton (top : String) (rest : List String) :
    fallbackAnalysis (top :: rest) =
      Except.ok (StageDict.output "clip predictions" (some (fallbackParsed top))) ∧
    pyGet (fallbackParsed top) "species_detected" =
      Except.ok (JsonVal.arr [JsonVal.obj [("common_name", JsonVal.str top),
        ("scientific_name", JsonVal.str ""), ("confidence", JsonVal.str "medium")]]) :=
  ⟨rfl, rfl⟩

/-- C9 counterexample: at the fixed reference now 2025-11-18 14:30:00
UTC with days_back 7, the eventDate lower bound is
"2025-11-11T14:30:00Z" — seven days earlier at the reference's own time of
day, not at midnight: the source subtracts the timedelta from
datetime.utcnow() without truncating the time. -/
theorem gbif_start_date_not_midnight_cex :
    (define_gbif_query_predicate "user" "mail" ⟨2025, 11, 18, 14, 30, 0, 0⟩ 7).predicates =
      [GbifPred.within "eventDate" "2025-11-11T14:30:00Z,",
       GbifPred.isNotNull "decimalLatitude", GbifPred.isNotNull "decimalLongitude",
       GbifPred.inValues "basisOfRecord"
         ["HUMAN_OBSERVATION", "MACHINE_OBSERVATION", "PRESERVED_SPECIMEN"]] ∧
    ("2025-11-11T14:30:00Z," : String) ≠ "2025-11-11T00:00:00Z," :=
  ⟨rfl, by decide⟩

/-- C9 amended: for every reference now and days_back that fits the
calendar, the predicate contains exactly the eventDate lower bound — the
instant exactly days_back calendar days earlier (ordinal decreased by
days_back) with the time of day of now preserved, ISO-8601 with a Z
suffix — the two isNotNull coordinate clauses, and the basisOfRecord
in-clause with exactly the three allow-listed values. -/
theorem gbif_predicate_amended (user email : String) (now : PyDateTime) (db : Nat)
    (hv : ValidDate now.date) (hd : (db : Int) < toRD now.date) :
    (define_gbif_query_predicate user email now db).predicates =
      [GbifPred.within "eventDate"
         ((isoformat (pyTimedeltaSubDays db now) ++ "Z") ++ ","),
       GbifPred.isNotNull "decimalLatitude", GbifPred.isNotNull "decimalLongitude",
       GbifPred.inValues "basisOfRecord"
         ["HUMAN_OBSERVATION", "MACHINE_OBSERVATION", "PRESERVED_SPECIMEN"]] ∧
    toRD (pyTimedeltaSubDays db now).date = toRD now.date - db ∧
    ValidDate (pyTimedeltaSubDays db now).date ∧
    (pyTimedeltaSubDays db now).hour = now.hour ∧
    (pyTimedeltaSubDays db now).minute = now.minute ∧
    (pyTimedeltaSubDays db now).second = now.second ∧
    (pyTimedeltaSubDays db now).micro = now.micro := by
  obtain ⟨hvv, hrd⟩ := subDaysDate_toRD db now.date hv hd
  refine ⟨rfl, ?_, ?_, rfl, rfl, rfl, rfl⟩
  · exact hrd
  · exact hvv

/-- Witness for C9: the amended theorem evaluated at the fixed
reference instant. -/
theorem gbif_predicate_amended_witness :
    (define_gbif_query_predicate "user" "mail" ⟨2025, 11, 18, 14, 30, 0, 0⟩ 7).predicates =
      [GbifPred.within "eventDate"
         ((isoformat (pyTimedeltaSubDays 7 ⟨2025, 11, 18, 14, 30, 0, 0⟩) ++ "Z") ++ ","),
       GbifPred.isNotNull "decimalLatitude", GbifPred.isNotNull "decimalLongitude",
       GbifPred.inValues "basisOfRecord"
         ["HUMAN_OBSERVATION", "MACHINE_OBSERVATION", "PRESERVED_SPECIMEN"]] ∧
    toRD (pyTimedeltaSubDays 7 ⟨2025, 11, 18, 14, 30, 0, 0⟩).date =
      toRD (⟨2025, 11, 18, 14, 30, 0, 0⟩ : PyDateTime).date - 7 :=
  ⟨(gbif_predicate_amended "user" "mail" ⟨2025, 11, 18, 14, 30, 0, 0⟩ 7
      (by decide) (by decide)).1,
   (gbif_predicate_amended "user" "mail" ⟨2025, 11, 18, 14, 30, 0, 0⟩ 7
      (by decide) (by decide)).2.1⟩

/-- C10 counterexample: on a 404 response with body "not found" the
caller receives the fixed generic failure message, which contains neither
the upstream status code nor the body — those are only logged. -/
theorem gbif_failure_message_cex :
    (ingest_gbif_data "u" "p" "m" ⟨2025, 11, 18, 0, 0, 0, 0⟩
        (HttpResult.response 404 "not found")).1 =
      ("GBIF Request failed. Check logs for details.", 500) ∧
    strContains "GBIF Request failed. Check logs for details." "404" = false ∧
    strContains "GBIF Request failed. Check logs for details." "not found" = false :=
  ⟨rfl, rfl, rfl⟩

/-- C10 amended: exactly on a 202 response the caller receives the
stripped opaque download key (with HTTP 200); on any other status the
caller receives a fixed generic failure message with HTTP 500 while the
upstream status code and response body are written to the log. -/
theorem gbif_ingest_amended (user pw email : String) (now : PyDateTime)
    (stat : Nat) (body : String) :
    (stat = 202 →
      ingest_gbif_data user pw email now (HttpResult.response stat body) =
        (("GBIF Download Request submitted. Key: " ++ pyStrip body, 200),
         ["GBIF Download initiated successfully. Key: " ++ pyStrip body])) ∧
    (stat ≠ 202 →
      ingest_gbif_data user pw email now (HttpResult.response stat body) =
        (("GBIF Request failed. Check logs for details.", 500),
         ["GBIF Download Request failed. Status: " ++ toString stat
            ++ ". Response: " ++ body])) := by
  constructor
  · intro h
    subst h
    rfl
  · intro h
    have hb : (stat == 202) = false := by
      simp [h]
    simp [ingest_gbif_data, hb]

/-- Witness for C10: the ingest theorem evaluated at a 202 and at a
404 response. -/
theorem gbif_ingest_amended_witness :
    ingest_gbif_data "u" "p" "m" ⟨2025, 11, 18, 0, 0, 0, 0⟩
        (HttpResult.response 202 " key9 ") =
      (("GBIF Download Request submitted. Key: " ++ pyStrip " key9 ", 200),
       ["GBIF Download initiated successfully. Key: " ++ pyStrip " key9 "]) ∧
    ingest_gbif_data "u" "p" "m" ⟨2025, 11, 18, 0, 0, 0, 0⟩
        (HttpResult.response 404 "no") =
      (("GBIF Request failed. Check logs for details.", 500),
       ["GBIF Download Request failed. Status: " ++ toString 404
          ++ ". Response: " ++ "no"]) :=
  ⟨(gbif_ingest_amended "u" "p" "m" ⟨2025, 11, 18, 0, 0, 0, 0⟩ 202 " key9 ").1 rfl,
   (gbif_ingest_amended "u" "p" "m" ⟨2025, 11, 18, 0, 0, 0, 0⟩ 404 "no").2 (by decide)⟩

end GaiaNet
